import Mathlib

/-!
Verification of `ai_music_cleaner.py` (AI Music Cleaner): a FastAPI service
that downloads audio from a URL, separates it into vocal/accompaniment stems,
trims silence, and serves the resulting file.

The embedding models the filesystem as an association list from path strings
to file contents, and the three external collaborators (the yt-dlp downloader,
the spleeter separation model, the ffmpeg silence filter) as oracles supplied
in an `Env`.  Pipeline functions additionally return the list of external-tool
invocations they perform, so that "stage X is never invoked" properties can be
stated as facts about the trace.
-/

namespace Cleaner

/-- A filesystem: a finite map from absolute path strings to file contents
(byte lists).  Directories are not tracked; `mkdir` calls in the source are
no-ops on this map. -/
abbrev FS := List (String × List Nat)

/-- Look up the content of the file at path `p`, if it exists. -/
def fsLookup : FS → String → Option (List Nat)
  | [], _ => none
  | (q, c) :: rest, p => if q = p then some c else fsLookup rest p

/-- Remove every entry for path `p`. -/
def fsErase : FS → String → FS
  | [], _ => []
  | (q, c) :: rest, p => if q = p then fsErase rest p else (q, c) :: fsErase rest p

/-- Create or overwrite the file at path `p` with content `c`. -/
def fsSet (fs : FS) (p : String) (c : List Nat) : FS := (p, c) :: fsErase fs p

/-! ### Path helpers mirroring `pathlib` / `os.path` on the strings the code builds -/

/-- The last path component of `p` (the part after the final slash);
`pathlib.Path(p).name`. -/
def nameOf (p : String) : String := ⟨(p.data.reverse.takeWhile (fun c => c ≠ '/')).reverse⟩

/-- Everything up to and including the final slash of `p` (empty when `p` has
no slash).  `dirOf p ++ nameOf p = p`. -/
def dirOf (p : String) : String := ⟨(p.data.reverse.dropWhile (fun c => c ≠ '/')).reverse⟩

/-- `pathlib`'s stem rule applied to a bare file name: strip the part from the
last dot on, except when the dot is the first character or the last character
(then the name has no suffix and is returned whole). -/
def stemOfName (name : String) : String :=
  let rev := name.data.reverse
  let after := rev.takeWhile (fun c => c ≠ '.')
  match rev.dropWhile (fun c => c ≠ '.') with
  | [] => name
  | _ :: stemRev =>
    if stemRev = [] ∨ after = [] then name else ⟨stemRev.reverse⟩

/-- `pathlib.Path(p).stem`: the last component without its suffix. -/
def pyStem (p : String) : String := stemOfName (nameOf p)

/-- `pathlib.Path(p).with_name(n)`: replace the last component by `n`. -/
def withName (p n : String) : String := dirOf p ++ n

/-- `str(pathlib.Path(p).with_suffix(''))`: drop the suffix of the last
component. -/
def withSuffixEmpty (p : String) : String := dirOf p ++ pyStem p

/-- `os.path.join(a, b)` for the relative second components the code uses. -/
def osPathJoin (a b : String) : String := a ++ "/" ++ b

/-- `DOWNLOAD_DIR = BASE_DIR / "Downloads"`, with `BASE_DIR` (the directory of
the script) abstracted as `base`. -/
def DOWNLOAD_DIR (base : String) : String := base ++ "/Downloads"

/-- `OUTPUT_DIR = BASE_DIR / "output"`. -/
def OUTPUT_DIR (base : String) : String := base ++ "/output"

/-! ### External collaborators -/

/-- Oracles for the three external tools.  `ytdlp url outtmpl fs` and
`spleeter input destdir fs` return `(none, fs')` when the tool call returns
normally (having made arbitrary filesystem changes) and `(some msg, fs')` when
it raises an exception with message `msg`.  `trim` is the pure content
transformation performed by ffmpeg's fixed `silenceremove` filter; `none`
means the filter run fails (nonzero exit). -/
structure Env where
  ytdlp : String → String → FS → Option String × FS
  spleeter : String → String → FS → Option String × FS
  trim : List Nat → Option (List Nat)

/-- One invocation of an external tool, recorded in the trace. -/
inductive Call
  | fetch (url outtmpl : String)
  | separate (input destdir : String)
  | trim (cmd : List String)
  deriving DecidableEq, Repr

/-- An HTTP error as carried by `fastapi.HTTPException`. -/
structure Http where
  status : Nat
  detail : String
  deriving DecidableEq, Repr

/-- A response body.  `jsonFile r` is `{"file": r}`; `jsonError m` is
`{"error": m}`; `jsonDetail m` is `{"detail": m}`, FastAPI's rendering of a
raised `HTTPException`; `fileBytes mt c` is a `FileResponse` streaming content
`c` with media type `mt`. -/
inductive Body
  | jsonFile (ref : String)
  | jsonError (msg : String)
  | jsonDetail (msg : String)
  | fileBytes (mediaType : String) (content : List Nat)
  deriving DecidableEq, Repr

/-- An HTTP response. -/
structure Resp where
  status : Nat
  body : Body
  deriving DecidableEq, Repr

/-! ### Step 1: `download_audio` -/

/-- `download_audio(youtube_url, file_name)`: builds
`output_path = DOWNLOAD_DIR / file_name`, invokes yt-dlp with
`outtmpl = str(output_path.with_suffix(''))`; if yt-dlp raises, re-raises as
`HTTPException(400, "Download failed: ...")`; otherwise returns
`str(output_path) + ".mp3"` without checking that any file exists there. -/
def download_audio (env : Env) (base youtube_url file_name : String) (fs : FS) :
    Except Http String × FS × List Call :=
  let output_path := DOWNLOAD_DIR base ++ "/" ++ file_name
  let outtmpl := withSuffixEmpty output_path
  match env.ytdlp youtube_url outtmpl fs with
  | (some e, fs') => (.error ⟨400, "Download failed: " ++ e⟩, fs', [.fetch youtube_url outtmpl])
  | (none, fs') => (.ok (output_path ++ ".mp3"), fs', [.fetch youtube_url outtmpl])

/-! ### Step 2: `separate_audio` -/

/-- `separate_audio(file_path)`: computes `song_name = Path(file_path).stem`,
`song_output = OUTPUT_DIR / song_name` (mkdir is a no-op on the file map),
invokes spleeter's two-stem separation towards `str(OUTPUT_DIR)`; any
exception is re-raised as `HTTPException(500, "Separation failed: ...")`;
returns `str(song_output)`. -/
def separate_audio (env : Env) (base file_path : String) (fs : FS) :
    Except Http String × FS × List Call :=
  let song_name := pyStem file_path
  let song_output := OUTPUT_DIR base ++ "/" ++ song_name
  match env.spleeter file_path (OUTPUT_DIR base) fs with
  | (some e, fs') => (.error ⟨500, "Separation failed: " ++ e⟩, fs', [.separate file_path (OUTPUT_DIR base)])
  | (none, fs') => (.ok song_output, fs', [.separate file_path (OUTPUT_DIR base)])

/-! ### Step 3: `keep_only_sound` -/

/-- The fixed `-af` filter string the code passes to ffmpeg: threshold
−40 dB, minimum silence duration 0.1 s, at both ends and internally. -/
def AF_FILTER : String :=
  "silenceremove=start_periods=1:start_threshold=-40dB:start_silence=0.1:stop_periods=-1:stop_threshold=-40dB:stop_silence=0.1"

/-- The argument vector of the ffmpeg invocation in `keep_only_sound`. -/
def ffmpeg_cmd (input_file output_file : String) : List String :=
  ["ffmpeg", "-y", "-i", input_file, "-af", AF_FILTER, output_file]

/-- Semantics of running the ffmpeg silenceremove command: if the input file
exists and the filter succeeds on its content, the output file is (over)written
with the filtered content and the exit status is success; otherwise nothing is
written and the exit status is failure.  No other path is touched. -/
def run_ffmpeg (env : Env) (input_file output_file : String) (fs : FS) : Bool × FS :=
  match fsLookup fs input_file with
  | none => (false, fs)
  | some c =>
    match env.trim c with
    | none => (false, fs)
    | some c' => (true, fsSet fs output_file c')

/-- `keep_only_sound(input_file)`: derives
`output_file = Path(input_file).with_name(stem + "_sound.wav")`, runs the
ffmpeg command via `subprocess.run` with output discarded — the exit status is
ignored (the call does not raise on a nonzero exit) — and returns
`str(output_file)` unconditionally. -/
def keep_only_sound (env : Env) (input_file : String) (fs : FS) :
    String × FS × List Call :=
  let output_file := withName input_file (pyStem input_file ++ "_sound.wav")
  let r := run_ffmpeg env input_file output_file fs
  (output_file, r.2, [.trim (ffmpeg_cmd input_file output_file)])

/-! ### `os.replace` -/

/-- `os.replace(src, dst)`: atomically rename `src` to `dst`, overwriting
`dst`; raises (here: returns `.error` with the `OSError` message) when `src`
does not exist. -/
def os_replace (src dst : String) (fs : FS) : Except String FS :=
  match fsLookup fs src with
  | none => .error ("[Errno 2] No such file or directory: " ++ src ++ " -> " ++ dst)
  | some c => .ok (fsSet (fsErase fs src) dst c)

/-! ### The `/process` endpoint -/

/-- `GET /process`: validates `file_type ∈ {"vocals", "music"}` (else 400 with
a validation message), then runs download → separate → select stem → trim →
`os.replace` to `OUTPUT_DIR / (Path(file_name).stem + "_sound.wav")`; returns
`{"file": "/file?v=<final_path>"}` on success; a caught `HTTPException`
becomes `JSONResponse(its status, {"error": its detail})`; any other exception
becomes `JSONResponse(500, {"error": str(e)})`. -/
def process_audio (env : Env) (base : String) (fs : FS)
    (youtube_url file_name file_type : String) : Resp × FS × List Call :=
  if ¬ (file_type = "vocals" ∨ file_type = "music") then
    (⟨400, .jsonError "file_type must be 'vocals' or 'music'"⟩, fs, [])
  else
    match download_audio env base youtube_url file_name fs with
    | (.error e, fs1, t1) => (⟨e.status, .jsonError e.detail⟩, fs1, t1)
    | (.ok file_path, fs1, t1) =>
      match separate_audio env base file_path fs1 with
      | (.error e, fs2, t2) => (⟨e.status, .jsonError e.detail⟩, fs2, t1 ++ t2)
      | (.ok out_dir, fs2, t2) =>
        let selected_file :=
          if file_type = "vocals" then osPathJoin out_dir "vocals.wav"
          else osPathJoin out_dir "accompaniment.wav"
        match keep_only_sound env selected_file fs2 with
        | (sound_file, fs3, t3) =>
          let final_path := OUTPUT_DIR base ++ "/" ++ (pyStem file_name ++ "_sound.wav")
          match os_replace sound_file final_path fs3 with
          | .error msg => (⟨500, .jsonError msg⟩, fs3, t1 ++ t2 ++ t3)
          | .ok fs4 =>
            (⟨200, .jsonFile ("/file?v=" ++ final_path)⟩, fs4, t1 ++ t2 ++ t3)

/-! ### The `/file` endpoint -/

/-- `GET /file?v=...`: raises `HTTPException(404, "File not found")` when no
file exists at `v` (rendered by FastAPI as a 404 with body
`{"detail": "File not found"}`), otherwise returns
`FileResponse(v, media_type="audio/wav")` streaming the file's bytes. -/
def get_file (fs : FS) (v : String) : Resp :=
  match fsLookup fs v with
  | none => ⟨404, .jsonDetail "File not found"⟩
  | some c => ⟨200, .fileBytes "audio/wav" c⟩

/-! ### Helper lemmas -/

theorem fsLookup_fsErase (fs : FS) (p q : String) :
    fsLookup (fsErase fs p) q = if p = q then none else fsLookup fs q := by
  induction fs with
  | nil => simp [fsErase, fsLookup]
  | cons hd tl ih =>
    obtain ⟨a, c⟩ := hd
    by_cases hap : a = p <;> by_cases hpq : p = q <;>
      simp_all [fsErase, fsLookup]

theorem fsLookup_fsSet (fs : FS) (p : String) (c : List Nat) (q : String) :
    fsLookup (fsSet fs p c) q = if p = q then some c else fsLookup fs q := by
  simp only [fsSet, fsLookup, fsLookup_fsErase]
  split <;> simp_all

theorem dirOf_append_nameOf (p : String) : dirOf p ++ nameOf p = p := by
  apply String.ext
  rw [String.data_append]
  show (p.data.reverse.dropWhile _).reverse ++ (p.data.reverse.takeWhile _).reverse = p.data
  rw [← List.reverse_append, List.takeWhile_append_dropWhile, List.reverse_reverse]

theorem append_sound_ne (s : String) : s ++ "_sound.wav" ≠ s := by
  intro h
  have hl := congrArg String.length h
  rw [String.length_append] at hl
  have h10 : ("_sound.wav" : String).length = 10 := rfl
  omega

theorem stemOfName_sound_ne (n : String) : stemOfName n ++ "_sound.wav" ≠ n := by
  rcases hsplit : n.data.reverse.dropWhile (fun c => c ≠ '.') with - | ⟨d, stemRev⟩
  · simp only [stemOfName, hsplit]
    exact append_sound_ne n
  · by_cases hc : stemRev = [] ∨ n.data.reverse.takeWhile (fun c => c ≠ '.') = []
    · simp only [stemOfName, hsplit, if_pos hc]
      exact append_sound_ne n
    · simp only [stemOfName, hsplit, if_neg hc]
      intro h
      obtain ⟨A, hA⟩ : ∃ A, A = n.data.reverse.takeWhile (fun c => decide (c ≠ '.')) :=
        ⟨_, rfl⟩
      have hsplit2 : A ++ (d :: stemRev) = n.data.reverse := by
        rw [hA, ← hsplit]
        exact List.takeWhile_append_dropWhile _ _
      have hn : (stemRev.reverse ++ [d]) ++ A.reverse = n.data := by
        have := congrArg List.reverse hsplit2
        rwa [List.reverse_reverse, List.reverse_append, List.reverse_cons] at this
      have hdata : stemRev.reverse ++ ("_sound.wav" : String).data = n.data := by
        have := congrArg String.data h
        rwa [String.data_append] at this
      have hws : ("_sound.wav" : String).data = [d] ++ A.reverse := by
        rw [List.append_assoc] at hn
        exact List.append_cancel_left (hdata.trans hn.symm)
      have hdot : ('.' : Char) ∈ A := by
        rw [← List.mem_reverse]
        have hmem : ('.' : Char) ∈ ("_sound.wav" : String).data := by decide
        rw [hws] at hmem
        rcases List.mem_append.mp hmem with h1 | h1
        · exfalso
          have hd_ : d = '_' := by
            have := congrArg (fun l => l.head?) hws
            simpa using this.symm
          simp [hd_] at h1
        · exact h1
      rw [hA] at hdot
      have := List.mem_takeWhile_imp hdot
      simp at this

theorem withName_sound_ne (p : String) :
    withName p (pyStem p ++ "_sound.wav") ≠ p := by
  intro h
  have h0 : dirOf p ++ (stemOfName (nameOf p) ++ "_sound.wav") = p := h
  have hp : dirOf p ++ (stemOfName (nameOf p) ++ "_sound.wav") = dirOf p ++ nameOf p :=
    h0.trans (dirOf_append_nameOf p).symm
  have hdata := congrArg String.data hp
  rw [String.data_append, String.data_append] at hdata
  have := List.append_cancel_left hdata
  exact stemOfName_sound_ne (nameOf p) (String.ext this)

theorem run_ffmpeg_no_input (env : Env) (i o : String) (fs : FS)
    (h : fsLookup fs i = none) : run_ffmpeg env i o fs = (false, fs) := by
  unfold run_ffmpeg
  rw [h]

theorem run_ffmpeg_filter_fails (env : Env) (i o : String) (fs : FS) (c : List Nat)
    (h : fsLookup fs i = some c) (h2 : env.trim c = none) :
    run_ffmpeg env i o fs = (false, fs) := by
  unfold run_ffmpeg
  rw [h]
  show (match env.trim c with
    | none => (false, fs)
    | some c' => (true, fsSet fs o c')) = (false, fs)
  rw [h2]

theorem run_ffmpeg_writes (env : Env) (i o : String) (fs : FS) (c c' : List Nat)
    (h : fsLookup fs i = some c) (h2 : env.trim c = some c') :
    run_ffmpeg env i o fs = (true, fsSet fs o c') := by
  unfold run_ffmpeg
  rw [h]
  show (match env.trim c with
    | none => (false, fs)
    | some c'' => (true, fsSet fs o c'')) = (true, fsSet fs o c')
  rw [h2]

/-! ### Abbreviations for the paths the pipeline builds -/

/-- `output_path` in `download_audio`: `DOWNLOAD_DIR / file_name`. -/
def dlOutPath (base file_name : String) : String := DOWNLOAD_DIR base ++ "/" ++ file_name

/-- The path `download_audio` returns: `str(output_path) + ".mp3"`. -/
def dlFile (base file_name : String) : String := dlOutPath base file_name ++ ".mp3"

/-- The directory `separate_audio` returns for the downloaded file. -/
def sepDir (base file_name : String) : String :=
  OUTPUT_DIR base ++ "/" ++ pyStem (dlFile base file_name)

/-- The stem file the orchestrator selects: `vocals.wav` for
`file_type == "vocals"`, else `accompaniment.wav`. -/
def selectedStem (base file_name file_type : String) : String :=
  if file_type = "vocals" then osPathJoin (sepDir base file_name) "vocals.wav"
  else osPathJoin (sepDir base file_name) "accompaniment.wav"

/-- The output path `keep_only_sound` derives for a given input. -/
def trimOut (input : String) : String := withName input (pyStem input ++ "_sound.wav")

/-- The stable path the orchestrator moves the trimmed file to:
`OUTPUT_DIR / (Path(file_name).stem + "_sound.wav")`. -/
def finalPath (base file_name : String) : String :=
  OUTPUT_DIR base ++ "/" ++ (pyStem file_name ++ "_sound.wav")

/-! ### Concrete environments used to instantiate theorems -/

/-- An environment where every external tool succeeds without touching the
filesystem and the filter is the identity. -/
def envId : Env :=
  ⟨fun _ _ f => (none, f), fun _ _ f => (none, f), fun c => some c⟩

/-- An environment whose downloader raises. -/
def envDlFail : Env :=
  ⟨fun _ _ f => (some "boom", f), fun _ _ f => (none, f), fun c => some c⟩

/-- An environment whose separator raises. -/
def envSepFail : Env :=
  ⟨fun _ _ f => (none, f), fun _ _ f => (some "corrupt", f), fun c => some c⟩

/-- An environment whose silence filter always fails. -/
def envTrimFail : Env :=
  ⟨fun _ _ f => (none, f), fun _ _ f => (none, f), fun _ => none⟩

/-- An environment modelling a run where the separation step writes the
`song1` vocal stem and everything succeeds. -/
def envSong1 : Env :=
  ⟨fun _ _ f => (none, f),
   fun _ _ f => (none, fsSet f "/app/output/song1/vocals.wav" [1, 2, 3]),
   fun c => some c⟩

/-! ### Claim theorems -/

/-- C1: a `/process` request whose `file_type` is not one of the accepted
stem types (`"vocals"`, `"music"`) returns status 400 with the validation
message, leaves the filesystem untouched, and performs no external-tool call —
in particular the Fetcher is never invoked. -/
theorem c1_invalid_stem_type_rejected (env : Env) (base : String) (fs : FS)
    (youtube_url file_name file_type : String)
    (h1 : file_type ≠ "vocals") (h2 : file_type ≠ "music") :
    process_audio env base fs youtube_url file_name file_type =
      (⟨400, .jsonError "file_type must be 'vocals' or 'music'"⟩, fs, []) ∧
    ∀ url outtmpl,
      Call.fetch url outtmpl ∉ (process_audio env base fs youtube_url file_name file_type).2.2 := by
  have hcase : ¬ (file_type = "vocals" ∨ file_type = "music") := by tauto
  refine ⟨by simp [process_audio, hcase], ?_⟩
  intro url o
  simp [process_audio, hcase]

/-- C1 witness: requesting stem type `"drums"` is rejected without any tool
call. -/
theorem c1_invalid_stem_type_rejected_witness :
    process_audio envId "/app" [] "u" "song" "drums" =
      (⟨400, .jsonError "file_type must be 'vocals' or 'music'"⟩, [], []) ∧
    ∀ url outtmpl,
      Call.fetch url outtmpl ∉ (process_audio envId "/app" [] "u" "song" "drums").2.2 :=
  c1_invalid_stem_type_rejected envId "/app" [] "u" "song" "drums"
    (by decide) (by decide)

/-- C3: when the fetch stage fails (yt-dlp raises with message `e`), the
`/process` endpoint returns status 400 with body
`{"error": "Download failed: " ++ e}` and the Separator is never invoked. -/
theorem c3_fetch_failure_400_no_separator (env : Env) (base : String) (fs fs' : FS)
    (e youtube_url file_name file_type : String)
    (hft : file_type = "vocals" ∨ file_type = "music")
    (hdl : env.ytdlp youtube_url (withSuffixEmpty (dlOutPath base file_name)) fs =
      (some e, fs')) :
    (process_audio env base fs youtube_url file_name file_type).1 =
      ⟨400, .jsonError ("Download failed: " ++ e)⟩ ∧
    ∀ i dd,
      Call.separate i dd ∉ (process_audio env base fs youtube_url file_name file_type).2.2 := by
  have hcase : ¬¬ (file_type = "vocals" ∨ file_type = "music") := not_not_intro hft
  simp only [dlOutPath] at hdl
  constructor
  · simp [process_audio, download_audio, hcase, hdl]
  · intro i dd
    simp [process_audio, download_audio, hcase, hdl]

/-- C3 witness: with a failing downloader, the concrete request gets the
retrieval 400 and the trace contains no separation call. -/
theorem c3_fetch_failure_400_no_separator_witness :
    (process_audio envDlFail "/app" [] "u" "song" "vocals").1 =
      ⟨400, .jsonError ("Download failed: " ++ "boom")⟩ ∧
    ∀ i dd,
      Call.separate i dd ∉ (process_audio envDlFail "/app" [] "u" "song" "vocals").2.2 :=
  c3_fetch_failure_400_no_separator envDlFail "/app" [] [] "boom" "u" "song" "vocals"
    (Or.inl rfl) rfl

/-- C4: when the separation stage fails (spleeter raises with message `e`),
the `/process` endpoint returns status 500 with body
`{"error": "Separation failed: " ++ e}` and the SilenceTrimmer is never
invoked. -/
theorem c4_separation_failure_500_no_trimmer (env : Env) (base : String)
    (fs fs1 fs2 : FS) (e youtube_url file_name file_type : String)
    (hft : file_type = "vocals" ∨ file_type = "music")
    (hdl : env.ytdlp youtube_url (withSuffixEmpty (dlOutPath base file_name)) fs =
      (none, fs1))
    (hsep : env.spleeter (dlFile base file_name) (OUTPUT_DIR base) fs1 = (some e, fs2)) :
    (process_audio env base fs youtube_url file_name file_type).1 =
      ⟨500, .jsonError ("Separation failed: " ++ e)⟩ ∧
    ∀ cmd,
      Call.trim cmd ∉ (process_audio env base fs youtube_url file_name file_type).2.2 := by
  have hcase : ¬¬ (file_type = "vocals" ∨ file_type = "music") := not_not_intro hft
  simp only [dlOutPath, dlFile] at hdl hsep
  constructor
  · simp [process_audio, download_audio, separate_audio, hcase, hdl, hsep]
  · intro cmd
    simp [process_audio, download_audio, separate_audio, hcase, hdl, hsep]

/-- C4 witness: with a failing separator, the concrete request gets the 500
and the trace contains no trim call. -/
theorem c4_separation_failure_500_no_trimmer_witness :
    (process_audio envSepFail "/app" [] "u" "song" "vocals").1 =
      ⟨500, .jsonError ("Separation failed: " ++ "corrupt")⟩ ∧
    ∀ cmd,
      Call.trim cmd ∉ (process_audio envSepFail "/app" [] "u" "song" "vocals").2.2 :=
  c4_separation_failure_500_no_trimmer envSepFail "/app" [] [] [] "corrupt" "u" "song"
    "vocals" (Or.inl rfl) rfl rfl

/-- C2: when no stage raises (the downloader and separator return normally
and the trimmed file exists for the final rename), the orchestrator selects
`vocals.wav` for `file_type = "vocals"` and `accompaniment.wav` otherwise,
runs the silence trimmer on that stem, moves the trimmed file to
`OUTPUT_DIR / (stem of file_name + "_sound.wav")`, and returns 200 with body
`{"file": "/file?v=" ++ that path}`. -/
theorem c2_success_pipeline (env : Env) (base : String) (fs fs1 fs2 : FS)
    (c : List Nat) (youtube_url file_name file_type : String)
    (hft : file_type = "vocals" ∨ file_type = "music")
    (hdl : env.ytdlp youtube_url (withSuffixEmpty (dlOutPath base file_name)) fs =
      (none, fs1))
    (hsep : env.spleeter (dlFile base file_name) (OUTPUT_DIR base) fs1 = (none, fs2))
    (hsnd : fsLookup
        (run_ffmpeg env (selectedStem base file_name file_type)
          (trimOut (selectedStem base file_name file_type)) fs2).2
        (trimOut (selectedStem base file_name file_type)) = some c) :
    process_audio env base fs youtube_url file_name file_type =
      (⟨200, .jsonFile ("/file?v=" ++ finalPath base file_name)⟩,
       fsSet
         (fsErase
           (run_ffmpeg env (selectedStem base file_name file_type)
             (trimOut (selectedStem base file_name file_type)) fs2).2
           (trimOut (selectedStem base file_name file_type)))
         (finalPath base file_name) c,
       [.fetch youtube_url (withSuffixEmpty (dlOutPath base file_name)),
        .separate (dlFile base file_name) (OUTPUT_DIR base),
        .trim (ffmpeg_cmd (selectedStem base file_name file_type)
          (trimOut (selectedStem base file_name file_type)))]) := by
  rcases hft with h | h <;> subst h <;>
    simp only [dlOutPath, dlFile, selectedStem, sepDir, trimOut, osPathJoin, finalPath,
      String.reduceEq, reduceIte] at hdl hsep hsnd ⊢ <;>
    simp [process_audio, download_audio, separate_audio, keep_only_sound, os_replace,
      osPathJoin, finalPath, hdl, hsep, hsnd]

/-- C2 witness: a concrete fully successful run for `file_name = "song1"`,
`file_type = "vocals"` produces the 200 response pointing at
`/app/output/song1_sound.wav`. -/
theorem c2_success_pipeline_witness :
    process_audio envSong1 "/app" [] "u" "song1" "vocals" =
      (⟨200, .jsonFile ("/file?v=" ++ finalPath "/app" "song1")⟩,
       fsSet
         (fsErase
           (run_ffmpeg envSong1 (selectedStem "/app" "song1" "vocals")
             (trimOut (selectedStem "/app" "song1" "vocals"))
             [("/app/output/song1/vocals.wav", [1, 2, 3])]).2
           (trimOut (selectedStem "/app" "song1" "vocals")))
         (finalPath "/app" "song1") [1, 2, 3],
       [.fetch "u" (withSuffixEmpty (dlOutPath "/app" "song1")),
        .separate (dlFile "/app" "song1") (OUTPUT_DIR "/app"),
        .trim (ffmpeg_cmd (selectedStem "/app" "song1" "vocals")
          (trimOut (selectedStem "/app" "song1" "vocals")))]) :=
  c2_success_pipeline envSong1 "/app" [] []
    [("/app/output/song1/vocals.wav", [1, 2, 3])] [1, 2, 3] "u" "song1" "vocals"
    (Or.inl rfl) rfl rfl (by decide)

/-- Every `/process` response is either a 200 with a `{"file": ...}` body or
a 400/500 with an `{"error": ...}` body. -/
theorem process_audio_outcomes (env : Env) (base : String) (fs : FS)
    (youtube_url file_name file_type : String) :
    ((process_audio env base fs youtube_url file_name file_type).1.status = 200 ∧
      ∃ r, (process_audio env base fs youtube_url file_name file_type).1.body =
        Body.jsonFile r) ∨
    (((process_audio env base fs youtube_url file_name file_type).1.status = 400 ∨
       (process_audio env base fs youtube_url file_name file_type).1.status = 500) ∧
      ∃ m, (process_audio env base fs youtube_url file_name file_type).1.body =
        Body.jsonError m) := by
  by_cases hft : ¬ (file_type = "vocals" ∨ file_type = "music")
  · right
    simp [process_audio, hft]
  · simp only [process_audio, if_neg hft]
    rcases hy : env.ytdlp youtube_url
        (withSuffixEmpty (DOWNLOAD_DIR base ++ "/" ++ file_name)) fs with ⟨oe, fs1⟩
    cases oe with
    | some e =>
      right
      simp [download_audio, hy]
    | none =>
      simp only [download_audio, hy]
      rcases hs : env.spleeter (DOWNLOAD_DIR base ++ "/" ++ file_name ++ ".mp3")
          (OUTPUT_DIR base) fs1 with ⟨oe2, fs2⟩
      cases oe2 with
      | some e =>
        right
        simp [separate_audio, hs]
      | none =>
        simp only [separate_audio, hs, keep_only_sound, os_replace]
        repeat' split <;> simp

/-- C5 counterexample: a failing request to the file endpoint (a 404 on a
missing reference) does not carry an `error` field — the raised
`HTTPException` is rendered with the message under the `detail` key. -/
theorem c5_file_endpoint_body_counterexample :
    (get_file [] "missing.wav").status = 404 ∧
    ∀ m, (get_file [] "missing.wav").body ≠ Body.jsonError m := by
  refine ⟨rfl, ?_⟩
  intro m h
  have hbody : (get_file [] "missing.wav").body = Body.jsonDetail "File not found" := rfl
  rw [hbody] at h
  exact Body.noConfusion h

/-- C5 (amended): every failing `/process` response is a JSON object with an
`error` field and status 400 or 500 per the taxonomy; a failing file-endpoint
request is a 404 whose JSON body carries the message under the framework's
`detail` key rather than an `error` field. -/
theorem c5_failure_bodies :
    (∀ env base fs youtube_url file_name file_type,
      (process_audio env base fs youtube_url file_name file_type).1.status ≠ 200 →
      ((process_audio env base fs youtube_url file_name file_type).1.status = 400 ∨
        (process_audio env base fs youtube_url file_name file_type).1.status = 500) ∧
      ∃ m, (process_audio env base fs youtube_url file_name file_type).1.body =
        Body.jsonError m) ∧
    (∀ fs v, (get_file fs v).status ≠ 200 →
      get_file fs v = ⟨404, Body.jsonDetail "File not found"⟩) := by
  constructor
  · intro env base fs u n t hne
    rcases process_audio_outcomes env base fs u n t with ⟨h200, -⟩ | h
    · exact absurd h200 hne
    · exact h
  · intro fs v hne
    unfold get_file at hne ⊢
    rcases h : fsLookup fs v with - | c
    · rfl
    · rw [h] at hne
      simp at hne

/-- C5 witness: the amended statement at a concrete failing request to each
endpoint. -/
theorem c5_failure_bodies_witness :
    (((process_audio envId "/app" [] "u" "song" "drums").1.status = 400 ∨
       (process_audio envId "/app" [] "u" "song" "drums").1.status = 500) ∧
      ∃ m, (process_audio envId "/app" [] "u" "song" "drums").1.body =
        Body.jsonError m) ∧
    get_file [] "missing.wav" = ⟨404, Body.jsonDetail "File not found"⟩ :=
  ⟨c5_failure_bodies.1 envId "/app" [] "u" "song" "drums" (by decide),
   c5_failure_bodies.2 [] "missing.wav" (by decide)⟩

/-- C6: the file endpoint returns 404 when no file exists at the reference
`v`, and otherwise streams the file's bytes with media type `audio/wav`; the
filesystem is universally quantified, so this holds after any prior pipeline
activity. -/
theorem c6_get_file_behaviour (fs : FS) (v : String) :
    (fsLookup fs v = none →
      get_file fs v = ⟨404, Body.jsonDetail "File not found"⟩) ∧
    (∀ c, fsLookup fs v = some c →
      get_file fs v = ⟨200, Body.fileBytes "audio/wav" c⟩) := by
  constructor
  · intro h
    simp [get_file, h]
  · intro c h
    simp [get_file, h]

/-- C6 witness: a present file is streamed, a missing one yields 404. -/
theorem c6_get_file_behaviour_witness :
    get_file [("/app/output/song1_sound.wav", [9, 9])] "/app/output/song1_sound.wav" =
      ⟨200, Body.fileBytes "audio/wav" [9, 9]⟩ ∧
    get_file [] "/app/output/none.wav" = ⟨404, Body.jsonDetail "File not found"⟩ :=
  ⟨(c6_get_file_behaviour [("/app/output/song1_sound.wav", [9, 9])]
      "/app/output/song1_sound.wav").2 [9, 9] (by decide),
   (c6_get_file_behaviour [] "/app/output/none.wav").1 (by decide)⟩

/-- C7: the silence trimmer is non-destructive: it derives its output path as
`<input stem>_sound.wav` in the input's directory and returns it, invokes
ffmpeg with the fixed `silenceremove` filter (threshold −40 dB, minimum
silence 0.1 s), writes at most to that output path (every other path, the
input included, is left unchanged). -/
theorem c7_trimmer_nondestructive (env : Env) (input_file : String) (fs : FS) :
    (keep_only_sound env input_file fs).1 =
      withName input_file (pyStem input_file ++ "_sound.wav") ∧
    (keep_only_sound env input_file fs).2.2 =
      [Call.trim ["ffmpeg", "-y", "-i", input_file, "-af",
        "silenceremove=start_periods=1:start_threshold=-40dB:start_silence=0.1:stop_periods=-1:stop_threshold=-40dB:stop_silence=0.1",
        withName input_file (pyStem input_file ++ "_sound.wav")]] ∧
    (∀ p, p ≠ withName input_file (pyStem input_file ++ "_sound.wav") →
      fsLookup (keep_only_sound env input_file fs).2.1 p = fsLookup fs p) ∧
    fsLookup (keep_only_sound env input_file fs).2.1 input_file =
      fsLookup fs input_file := by
  refine ⟨rfl, rfl, ?_, ?_⟩
  · intro p hp
    simp only [keep_only_sound, run_ffmpeg]
    rcases h1 : fsLookup fs input_file with - | c
    · rfl
    · rcases h2 : env.trim c with - | c'
      · simp [h2]
      · simp only [h2]
        rw [fsLookup_fsSet]
        exact if_neg (fun h => hp h.symm)
  · have hne : input_file ≠ withName input_file (pyStem input_file ++ "_sound.wav") :=
      fun h => withName_sound_ne input_file h.symm
    simp only [keep_only_sound, run_ffmpeg]
    rcases h1 : fsLookup fs input_file with - | c
    · exact h1
    · rcases h2 : env.trim c with - | c'
      · simp [h2, h1]
      · simp only [h2]
        rw [fsLookup_fsSet, if_neg (fun h => hne h.symm)]
        exact h1

/-- C7 witness: trimming `/d/in.wav` leaves the unrelated file
`/d/other.wav` untouched. -/
theorem c7_trimmer_nondestructive_witness :
    fsLookup (keep_only_sound envId "/d/in.wav" [("/d/other.wav", [5])]).2.1
        "/d/other.wav" =
      fsLookup [("/d/other.wav", [5])] "/d/other.wav" :=
  (c7_trimmer_nondestructive envId "/d/in.wav" [("/d/other.wav", [5])]).2.2.1
    "/d/other.wav" (by decide)

/-- C8: `keep_only_sound` returns the derived output path unconditionally —
the subprocess exit status is ignored, so a failed filter run is swallowed:
the path is still returned and nothing is written. -/
theorem c8_trimmer_swallows_failure (env : Env) (input_file : String) (fs : FS) :
    (keep_only_sound env input_file fs).1 =
      withName input_file (pyStem input_file ++ "_sound.wav") ∧
    ((run_ffmpeg env input_file
        (withName input_file (pyStem input_file ++ "_sound.wav")) fs).1 = false →
      (keep_only_sound env input_file fs).2.1 = fs) := by
  refine ⟨rfl, ?_⟩
  intro hfail
  simp only [keep_only_sound]
  rcases h1 : fsLookup fs input_file with - | c
  · rw [run_ffmpeg_no_input env _ _ _ h1]
  · rcases h2 : env.trim c with - | c'
    · rw [run_ffmpeg_filter_fails env _ _ _ c h1 h2]
    · rw [run_ffmpeg_writes env _ _ _ c c' h1 h2] at hfail
      simp at hfail

/-- C8 witness: with a failing filter, the path is still returned and the
filesystem is unchanged (no output file is produced). -/
theorem c8_trimmer_swallows_failure_witness :
    (keep_only_sound envTrimFail "/d/in.wav" [("/d/in.wav", [1])]).1 =
      withName "/d/in.wav" (pyStem "/d/in.wav" ++ "_sound.wav") ∧
    (keep_only_sound envTrimFail "/d/in.wav" [("/d/in.wav", [1])]).2.1 =
      [("/d/in.wav", [1])] :=
  ⟨(c8_trimmer_swallows_failure envTrimFail "/d/in.wav" [("/d/in.wav", [1])]).1,
   (c8_trimmer_swallows_failure envTrimFail "/d/in.wav" [("/d/in.wav", [1])]).2
     (by decide)⟩

/-- C9: whenever the downloader invocation returns without raising,
`download_audio` returns the string `DOWNLOAD_DIR / file_name + ".mp3"`
regardless of the resulting filesystem — no existence check is made; and
(because per-item download errors are ignored) there is a non-raising run
after which no file exists at the returned path. -/
theorem c9_download_path_unchecked :
    (∀ env base youtube_url file_name fs fs1,
      env.ytdlp youtube_url (withSuffixEmpty (dlOutPath base file_name)) fs =
        (none, fs1) →
      (download_audio env base youtube_url file_name fs).1 =
        .ok (DOWNLOAD_DIR base ++ "/" ++ file_name ++ ".mp3")) ∧
    (∃ env base youtube_url file_name fs,
      (download_audio env base youtube_url file_name fs).1 =
        .ok (DOWNLOAD_DIR base ++ "/" ++ file_name ++ ".mp3") ∧
      fsLookup (download_audio env base youtube_url file_name fs).2.1
        (DOWNLOAD_DIR base ++ "/" ++ file_name ++ ".mp3") = none) := by
  constructor
  · intro env base u n fs fs1 h
    simp only [dlOutPath] at h
    simp [download_audio, h]
  · exact ⟨envId, "/app", "u", "song", [], rfl, rfl⟩

/-- C9 witness: the first conjunct applied at a concrete non-raising run. -/
theorem c9_download_path_unchecked_witness :
    (download_audio envId "/app" "u" "song" []).1 =
      .ok (DOWNLOAD_DIR "/app" ++ "/" ++ "song" ++ ".mp3") :=
  c9_download_path_unchecked.1 envId "/app" "u" "song" [] [] rfl

/-- C10: the file endpoint restricts the reference in no way: any string `v`
at which a file exists — anywhere on the filesystem, not only under the
output directory — is streamed back with media type `audio/wav`. -/
theorem c10_get_file_unrestricted (fs : FS) (v : String) (c : List Nat)
    (h : fsLookup fs v = some c) :
    get_file fs v = ⟨200, Body.fileBytes "audio/wav" c⟩ := by
  simp [get_file, h]

/-- C10 witness: a file far outside the output directory is served. -/
theorem c10_get_file_unrestricted_witness :
    get_file [("/etc/hostname", [104, 105])] "/etc/hostname" =
      ⟨200, Body.fileBytes "audio/wav" [104, 105]⟩ :=
  c10_get_file_unrestricted [("/etc/hostname", [104, 105])] "/etc/hostname"
    [104, 105] (by decide)

end Cleaner
